import Mathlib

/-!
Verification development for dagster's configuration-composition engine
(`dagster/core/definitions/config_mappable.py`) and for the repository
decorator's assembly validation
(`dagster/core/definitions/decorators/repository.py`).

Modelling conventions:
* Python configuration values are modelled by the inductive `ConfigValue`
  (ints, strings and string-keyed dicts suffice for everything the engine
  inspects); Python config schemas by `ConfigSchema`.
* `EvaluateValueResult` mirrors `dagster.config.evaluate_value_result`:
  either a success carrying a value or a failure carrying a list of errors.
* Raised Python exceptions are modelled with `Except DagsterError`;
  `DagsterError` has one constructor per exception class the sources raise
  (`DagsterConfigMappingFunctionError`, `CheckError` from the `check`
  module, and `DagsterInvalidDefinitionError`).
* User-supplied config mapping functions are modelled as Lean functions
  `ConfigValue → Except String ConfigValue`; a `.error` result models the
  user function raising an arbitrary exception.
* The external schema validator `process_config` (from
  `dagster.config.validate`, not part of the sources) is a black-box
  collaborator; resolution is therefore parameterized over an arbitrary
  `Validator`.  A simple concrete validator, modelled from the spec, is
  supplied for evaluating concrete examples.
* The closure stored in `_configured_config_mapping_fn` always arises from
  `ConfiguredMixin._get_wrapped_config_mapping_fn`, whose only captured
  state is the inner entity (`self`) and the user config function.  The
  embedding therefore defunctionalizes it: a wrapped entity stores the
  user-supplied `ConfigOrFn` and its inner entity, and
  `apply_config_mapping` inlines the body of `wrapped_config_mapping_fn`
  (source lines 92-112) in the wrapped case.
-/

/-- A structured Python configuration value: scalar int, scalar string, or a
string-keyed dictionary.  Only structural equality matters. -/
inductive ConfigValue where
  | vInt (n : Int)
  | vStr (s : String)
  | vDict (entries : List (String × ConfigValue))

/-- A configuration schema: scalar int field, scalar string field, or a
dictionary of named fields. -/
inductive ConfigSchema where
  | sInt
  | sStr
  | sDict (fields : List (String × ConfigSchema))

/-- Mirrors `dagster.config.evaluate_value_result.EvaluateValueResult`:
exactly one of a success value or a list of validation errors. -/
inductive EvaluateValueResult where
  | success (value : ConfigValue)
  | failure (errors : List String)

/-- `EvaluateValueResult.for_value`: wraps a value as a success result. -/
def EvaluateValueResult.for_value (value : ConfigValue) : EvaluateValueResult :=
  EvaluateValueResult.success value

/-- The Python exceptions raised by the sources, one constructor per class:
`DagsterConfigMappingFunctionError` (carrying the boundary message and the
user error it re-signals), `CheckError` (raised by the `check` module's
`invariant` / `param_invariant` / `inst_param` / `dict_param`), and
`DagsterInvalidDefinitionError`. -/
inductive DagsterError where
  | DagsterConfigMappingFunctionError (message : String) (cause : String)
  | CheckError (message : String)
  | DagsterInvalidDefinitionError (message : String)
deriving DecidableEq, Repr

/-- Spec section 7 groups usage-time misuse errors under the name
"Definition Error": in the code these surface either as `CheckError` (from
the `check` module helpers) or as `DagsterInvalidDefinitionError`. -/
def DagsterError.is_definition_error : DagsterError → Bool
  | .CheckError _ => true
  | .DagsterInvalidDefinitionError _ => true
  | .DagsterConfigMappingFunctionError _ _ => false

/-- Python truthiness of an optional string (`None` and `""` are falsy), as
used by `name = new_name or fn_name` and `if not self.name`. -/
def py_truthy : Option String → Bool
  | none => false
  | some s => !s.isEmpty

/-- `isinstance(v, dict)`. -/
def ConfigValue.isDict : ConfigValue → Bool
  | .vDict _ => true
  | _ => false

/-- Python `d.get(key, default)` on a dict value (default on non-dicts,
which the sources guard against separately via `check.dict_param`). -/
def ConfigValue.getField : ConfigValue → String → ConfigValue → ConfigValue
  | .vDict entries, key, dflt =>
    match entries.lookup key with
    | some v => v
    | none => dflt
  | _, _, dflt => dflt

/-- The black-box external schema validator interface (spec section 6):
`process_config(schema, config)` returning an `EvaluateValueResult`. -/
def Validator : Type :=
  ConfigSchema → ConfigValue → EvaluateValueResult

/-- The `config_or_config_fn` argument of `configured`: either a static
configuration value or a user config mapping function.  A Python function
object carries its `__name__` (`fnName`); a `.error` result of the function
models user code raising an exception. -/
inductive ConfigOrFn where
  | staticConfig (config : ConfigValue)
  | configFn (fnName : String) (fn : ConfigValue → Except String ConfigValue)

/-- Source lines 81-90: a callable is used directly as the config mapping
function; a static config object is stubbed into a constant function. -/
def config_fn_of : ConfigOrFn → (ConfigValue → Except String ConfigValue)
  | .staticConfig config => fun _ => .ok config
  | .configFn _ fn => fn

/-- `original_config_or_config_fn.__name__ if callable(...) else None`
(source lines 144-148).  Python function objects always carry `__name__`. -/
def fn_name_of : ConfigOrFn → Option String
  | .staticConfig _ => none
  | .configFn fnName _ => some fnName

/-- A configurable definition (an instance of a concrete subclass of
`ConfiguredMixin`).  `base` is an entity whose
`_configured_config_mapping_fn` is `None`; `wrapped` is an entity produced
by `configured` / `copy_for_configured`, holding the defunctionalized
closure state: the user `ConfigOrFn` and the inner entity captured as
`self` by `_get_wrapped_config_mapping_fn`.  `className` models
`self.__class__.__name__` (the concrete definition kind); `name` the
subclass `name` property; `is_nameless` the `_is_nameless` flag stored by
`__init__`. -/
inductive ConfiguredMixin where
  | base (className name : String) (description : Option String)
      (config_schema : Option ConfigSchema) (is_nameless : Bool)
  | wrapped (className name : String) (description : Option String)
      (config_schema : Option ConfigSchema) (is_nameless : Bool)
      (config_or_config_fn : ConfigOrFn) (inner : ConfiguredMixin)

/-- `self.__class__.__name__`. -/
def ConfiguredMixin.className : ConfiguredMixin → String
  | .base cn _ _ _ _ => cn
  | .wrapped cn _ _ _ _ _ _ => cn

/-- The `name` property of the concrete definition. -/
def ConfiguredMixin.name : ConfiguredMixin → String
  | .base _ nm _ _ _ => nm
  | .wrapped _ nm _ _ _ _ _ => nm

/-- The `config_schema` property (abstract in the mixin, stored by every
concrete subclass). -/
def ConfiguredMixin.config_schema : ConfiguredMixin → Option ConfigSchema
  | .base _ _ _ sch _ => sch
  | .wrapped _ _ _ sch _ _ _ => sch

/-- The `_is_nameless` flag. -/
def ConfiguredMixin.is_nameless : ConfiguredMixin → Bool
  | .base _ _ _ _ b => b
  | .wrapped _ _ _ _ b _ _ => b

/-- The stored description. -/
def ConfiguredMixin.description : ConfiguredMixin → Option String
  | .base _ _ d _ _ => d
  | .wrapped _ _ d _ _ _ _ => d

/-- `is_preconfigured` (source lines 37-39): true iff
`_configured_config_mapping_fn` is present. -/
def ConfiguredMixin.is_preconfigured : ConfiguredMixin → Bool
  | .base _ _ _ _ _ => false
  | .wrapped _ _ _ _ _ _ _ => true

/-- The inner entity captured by the stored config mapping closure, when
present. -/
def ConfiguredMixin.inner? : ConfiguredMixin → Option ConfiguredMixin
  | .base _ _ _ _ _ => none
  | .wrapped _ _ _ _ _ _ inner => some inner

/-- Number of wrap layers above the innermost base entity. -/
def ConfiguredMixin.wrap_chain_length : ConfiguredMixin → Nat
  | .base _ _ _ _ _ => 0
  | .wrapped _ _ _ _ _ _ inner => inner.wrap_chain_length + 1

/-- The names of the wrapped layers, root (outermost) to leaf (innermost). -/
def ConfiguredMixin.chain_names : ConfiguredMixin → List String
  | .base _ _ _ _ _ => []
  | .wrapped _ nm _ _ _ _ inner => nm :: inner.chain_names

/-- `_get_user_code_error_str_lambda` (source lines 67-71): the diagnostic
message attached by the error boundary, naming the concrete class. -/
def ConfiguredMixin._get_user_code_error_str (self : ConfiguredMixin) : String :=
  "The config mapping function on a `configured` " ++ self.className ++
    " has thrown an unexpected error during its execution."

/-- The message of the `CheckError` raised by `check.dict_param` at source
line 98. -/
def dict_param_msg : String :=
  "Param validated_and_resolved_config is not a dict"

/-- Source line 106: the schema the transformation draft is validated
against is the dict schema with a single field named config, holding the
inner entity's own schema, defaulted to the empty schema when the inner
entity declares none (`self.config_schema or \x7b\x7d`). -/
def wrapped_schema_of (inner_schema : Option ConfigSchema) : ConfigSchema :=
  ConfigSchema.sDict [("config", inner_schema.getD (ConfigSchema.sDict []))]

/-- `ConfiguredMixin.apply_config_mapping` (source lines 41-65), with the
body of `wrapped_config_mapping_fn` (source lines 92-112) inlined in the
wrapped case, parameterized over the black-box validator:

* base case (lines 61-65): no `_configured_config_mapping_fn`, return
  `EvaluateValueResult.for_value(config)` — identity resolution;
* wrapped case: `check.dict_param` the input (line 98); run the user config
  function on `validated_and_resolved_config.get("config", \x7b\x7d)` inside
  the error boundary, which re-signals any user error as a
  `DagsterConfigMappingFunctionError` with the inner entity's
  `_get_user_code_error_str_lambda` message (lines 99-104); validate
  `\x7b"config": draft\x7d` against the inner entity's schema (line 106); on
  success recurse into the inner entity (line 108), otherwise bubble up the
  failure (line 110). -/
def ConfiguredMixin.apply_config_mapping (V : Validator) :
    ConfiguredMixin → ConfigValue → Except DagsterError EvaluateValueResult
  | .base _ _ _ _ _, config => .ok (EvaluateValueResult.for_value config)
  | .wrapped _ _ _ _ _ config_or_config_fn inner, validated_and_resolved_config =>
    if validated_and_resolved_config.isDict then
      match config_fn_of config_or_config_fn
          (validated_and_resolved_config.getField "config" (.vDict [])) with
      | .error cause =>
        .error (.DagsterConfigMappingFunctionError
          inner._get_user_code_error_str cause)
      | .ok draft =>
        match V (wrapped_schema_of inner.config_schema)
            (.vDict [("config", draft)]) with
        | .success value => ConfiguredMixin.apply_config_mapping V inner value
        | .failure errors => .ok (.failure errors)
    else .error (.CheckError dict_param_msg)

/-- Observable steps of one resolution, used to count and order the
transformation invocations and inner-schema validations a resolve
performs.  Each event is labelled with the name of the wrapped layer that
performed it; a transformation event records the input handed to the user
function, a validation event the validator's outcome. -/
inductive ResolveEvent where
  | transformation (layer : String) (input : ConfigValue)
  | validation (layer : String) (result : EvaluateValueResult)

/-- Whether an event is a transformation invocation. -/
def ResolveEvent.is_transformation : ResolveEvent → Bool
  | .transformation _ _ => true
  | .validation _ _ => false

/-- Whether an event is an inner-schema validation. -/
def ResolveEvent.is_validation : ResolveEvent → Bool
  | .transformation _ _ => false
  | .validation _ _ => true

/-- The layer name an event is labelled with. -/
def ResolveEvent.layer : ResolveEvent → String
  | .transformation nm _ => nm
  | .validation nm _ => nm

/-- `apply_config_mapping` instrumented with a trace of the transformation
and validation events it performs, in execution order.  Its first component
always agrees with `ConfiguredMixin.apply_config_mapping`
(`apply_config_mapping_trace_fst` below). -/
def ConfiguredMixin.apply_config_mapping_trace (V : Validator) :
    ConfiguredMixin → ConfigValue →
      Except DagsterError EvaluateValueResult × List ResolveEvent
  | .base _ _ _ _ _, config => (.ok (EvaluateValueResult.for_value config), [])
  | .wrapped _ nm _ _ _ config_or_config_fn inner, validated_and_resolved_config =>
    if validated_and_resolved_config.isDict then
      match config_fn_of config_or_config_fn
          (validated_and_resolved_config.getField "config" (.vDict [])) with
      | .error cause =>
        ((.error (.DagsterConfigMappingFunctionError
            inner._get_user_code_error_str cause)),
         [.transformation nm
            (validated_and_resolved_config.getField "config" (.vDict []))])
      | .ok draft =>
        match V (wrapped_schema_of inner.config_schema)
            (.vDict [("config", draft)]) with
        | .success value =>
          let rest := ConfiguredMixin.apply_config_mapping_trace V inner value
          (rest.1,
           .transformation nm
               (validated_and_resolved_config.getField "config" (.vDict [])) ::
             .validation nm (.success value) :: rest.2)
        | .failure errors =>
          (.ok (.failure errors),
           [.transformation nm
              (validated_and_resolved_config.getField "config" (.vDict [])),
            .validation nm (.failure errors)])
    else (.error (.CheckError dict_param_msg), [])

/-- A successful trace hands each layer's validated draft to the next inner
layer: after every validation success carrying value `v`, the next
transformation (if any) receives `v.get("config", \x7b\x7d)` as its input. -/
def chain_fed : List ResolveEvent → Prop
  | [] => True
  | .transformation _ _ :: .validation _ (.success v) :: rest =>
    (match rest with
     | .transformation _ inp :: _ => inp = v.getField "config" (.vDict [])
     | [] => True
     | _ => False) ∧ chain_fed rest
  | _ => False

/-- Message of the `CheckError` raised by `check.invariant` at source lines
84-87 when a static (non-callable) config comes with a schema. -/
def static_with_schema_msg : String :=
  "When non-callable config is given, config_schema must be None"

/-- The `DagsterInvalidDefinitionError` message raised by
`_name_for_configured_node` (source lines 151-158), identifying the node
being configured by its own `name`. -/
def missing_name_msg (node_name : String) : String :=
  "Missing string param \"name\" while attempting to configure the node \"" ++
    node_name ++
    "\". When configuring a node, you must specify a name for the " ++
    "resulting node definition as a keyword param or use `configured` in " ++
    "decorator form. For examples, visit " ++
    "https://docs.dagster.io/overview/configuration#configured."

/-- `ConfiguredMixin._name_for_configured_node` (source lines 143-159):
`name = new_name or fn_name`, where `fn_name` is the callable's `__name__`
(or `None` for a static config); a falsy result raises a
`DagsterInvalidDefinitionError` naming `self.name`. -/
def ConfiguredMixin._name_for_configured_node (self : ConfiguredMixin)
    (new_name : Option String) (original_config_or_config_fn : ConfigOrFn) :
    Except DagsterError String :=
  let fn_name := fn_name_of original_config_or_config_fn
  let name := if py_truthy new_name then new_name else fn_name
  if py_truthy name then .ok (name.getD "")
  else .error (.DagsterInvalidDefinitionError (missing_name_msg self.name))

/-- Modelled from the spec: `copy_for_configured` is abstract in the
sources (source lines 26-35; its implementations live in the concrete
definition classes, which are not part of the sources).  Per spec section
4.2 it constructs a new entity of the same concrete kind as `self`,
carrying the wrapped config mapping function as its transformation, the
supplied `config_schema` as its own schema, and a name resolved by
`_name_for_configured_node`; its inner-entity reference is `self` itself. -/
def ConfiguredMixin.copy_for_configured (self : ConfiguredMixin)
    (name : Option String) (description : Option String)
    (config_or_config_fn : ConfigOrFn) (config_schema : Option ConfigSchema) :
    Except DagsterError ConfiguredMixin :=
  match self._name_for_configured_node name config_or_config_fn with
  | .error e => .error e
  | .ok n =>
    .ok (.wrapped self.className n description config_schema self.is_nameless
      config_or_config_fn self)

/-- `ConfiguredMixin.configured` (source lines 114-141).  It first builds
the wrapped config mapping function via `_get_wrapped_config_mapping_fn`
(source lines 73-112), whose `check.invariant` (lines 84-87) raises a
`CheckError` when a non-callable config is given together with a schema;
it then delegates to `copy_for_configured` (lines 139-141).  The closure
itself is defunctionalized into `apply_config_mapping`'s wrapped case. -/
def ConfiguredMixin.configured (self : ConfiguredMixin)
    (config_or_config_fn : ConfigOrFn) (config_schema : Option ConfigSchema)
    (name : Option String) (description : Option String) :
    Except DagsterError ConfiguredMixin :=
  match config_or_config_fn, config_schema with
  | .staticConfig _, some _ => .error (.CheckError static_with_schema_msg)
  | _, _ =>
    self.copy_for_configured name description config_or_config_fn config_schema

/-- The `configurable` argument of the module-level `configured` decorator:
a `CallableNode` (the intermediate artifact produced by aliasing or tagging
a solid definition), a genuine `ConfiguredMixin`, or any other object
(`type_name` records its type for diagnostics). -/
inductive ConfigurableParam where
  | callableNode
  | mixin (entity : ConfiguredMixin)
  | nonConfigurable (type_name : String)

/-- Message of the `CheckError` raised by `check.param_invariant` at source
lines 165-176 when `configured` is invoked on a `CallableNode`. -/
def callable_node_msg : String :=
  "You have invoked `configured` on a CallableNode (an intermediate type), " ++
    "which is produced by aliasing or tagging a solid definition. To " ++
    "configure a solid, you must call `configured` on either a " ++
    "SolidDefinition and CompositeSolidDefinition. To fix this error, make " ++
    "sure to call `configured` on the definition object *before* using the " ++
    "`tag` or `alias` methods. For usage examples, see " ++
    "https://docs.dagster.io/overview/configuration#configured"

/-- Message of the `CheckError` raised by `check.inst_param` at source
lines 177-187 when the argument is not a `ConfiguredMixin`. -/
def configurable_types_msg : String :=
  "Only the following types can be used with the `configured` method: " ++
    "ResourceDefinition, ExecutorDefinition, CompositeSolidDefinition, " ++
    "SolidDefinition, LoggerDefinition, IntermediateStorageDefinition, " ++
    "and SystemStorageDefinition. For usage examples of `configured`, see " ++
    "https://docs.dagster.io/overview/configuration#configured"

/-- `_check_configurable_param` (source lines 162-187): first
`check.param_invariant` rejects `CallableNode` instances, then
`check.inst_param` rejects anything that is not a `ConfiguredMixin`. -/
def _check_configurable_param : ConfigurableParam → Except DagsterError Unit
  | .callableNode => .error (.CheckError callable_node_msg)
  | .mixin _ => .ok ()
  | .nonConfigurable _ => .error (.CheckError configurable_types_msg)

/-- Modelled from the spec: `check_user_facing_opt_config_param` (from
`dagster.config.field_utils`, not part of the sources) normalizes a
user-facing schema into a canonical `Field`; on this model's already
canonical schemas it acts as the identity, preserving presence and
absence. -/
def check_user_facing_opt_config_param (config_schema : Option ConfigSchema) :
    Option ConfigSchema :=
  config_schema

/-- The module-level `configured` decorator (source lines 190-239): checks
the configurable parameter, normalizes the schema, and returns the
`_configured` closure that invokes `configurable.configured` on the config
or config function it later receives.  When the parameter check fails, the
error is raised at decoration time: no closure is returned, so no
transformation can ever be invoked and no wrapped entity constructed. -/
def configured (configurable : ConfigurableParam)
    (config_schema : Option ConfigSchema)
    (name : Option String) (description : Option String) :
    Except DagsterError (ConfigOrFn → Except DagsterError ConfiguredMixin) :=
  match _check_configurable_param configurable with
  | .error e => .error e
  | .ok _ =>
    match configurable with
    | .mixin entity =>
      .ok (fun config_or_config_fn =>
        entity.configured config_or_config_fn
          (check_user_facing_opt_config_param config_schema) name description)
    | _ => .error (.CheckError configurable_types_msg)

/-!
Repository decorator (`dagster/core/definitions/decorators/repository.py`).
Only the types of the returned objects matter to the validation performed
by `_Repository.__call__`, so list members are modelled by their type.
-/

/-- A member of the list form returned by a repository construction
function, identified by its Python type.  The five named constructors are
the classes the `isinstance` chain at source lines 47-53 accepts; `other`
covers every other type, recording its name for the error message. -/
inductive RepoListMember where
  | PipelineDefinition
  | PartitionSetDefinition
  | ScheduleDefinition
  | SensorDefinition
  | GraphDefinition
  | other (type_name : String)
deriving DecidableEq, Repr

/-- The Python type name of a list member, as formatted into the
membership error message. -/
def RepoListMember.type_name : RepoListMember → String
  | .PipelineDefinition => "PipelineDefinition"
  | .PartitionSetDefinition => "PartitionSetDefinition"
  | .ScheduleDefinition => "ScheduleDefinition"
  | .SensorDefinition => "SensorDefinition"
  | .GraphDefinition => "GraphDefinition"
  | .other tn => tn

/-- The `isinstance` chain at source lines 47-53: an element is legal iff
it is a `PipelineDefinition`, `PartitionSetDefinition`,
`ScheduleDefinition`, `SensorDefinition`, or `GraphDefinition`. -/
def is_valid_repository_list_member : RepoListMember → Bool
  | .PipelineDefinition => true
  | .PartitionSetDefinition => true
  | .ScheduleDefinition => true
  | .SensorDefinition => true
  | .GraphDefinition => true
  | .other _ => false

/-- Modelled from the spec: `VALID_REPOSITORY_DATA_DICT_KEYS` is imported
from `dagster.core.definitions.repository`, which is not part of the
sources.  Its contents follow the decorator docstring's dict form
(pipelines, partition_sets, schedules, sensors) plus the jobs key named in
the error message at source lines 72-73. -/
def VALID_REPOSITORY_DATA_DICT_KEYS : List String :=
  ["pipelines", "partition_sets", "schedules", "sensors", "jobs"]

/-- The return value of a repository construction function, classified by
the `isinstance` checks at source lines 33-37: a list of definitions, a
dict (whose category keys are what the validation inspects), a custom
`RepositoryData` object, or a value of any other type (`type_name` records
it for the error message). -/
inductive RepositoryTarget where
  | defList (definitions : List RepoListMember)
  | defDict (keys : List String)
  | repositoryData
  | badValue (type_name : String)

/-- Modelled from the spec: the uniform indexed repository data produced by
`CachingRepositoryData.from_list` / `from_dict` (both outside the sources)
or supplied directly as a custom `RepositoryData` object. -/
inductive RepositoryDataModel where
  | fromList (definitions : List RepoListMember)
  | fromDict (keys : List String)
  | custom
deriving DecidableEq, Repr

/-- Modelled from the spec: the `RepositoryDefinition` constructed at
source lines 88-90 from a name, an optional description and the indexed
repository data. -/
structure RepositoryDefinition where
  name : String
  description : Option String
  repository_data : RepositoryDataModel
deriving DecidableEq, Repr

/-- Message of the bad-return-type `DagsterInvalidDefinitionError` at
source lines 38-42. -/
def bad_return_msg (type_name : String) : String :=
  "Bad return value of type " ++ type_name ++
    " from repository construction function: must return list, dict, or " ++
    "RepositoryData. See the @repository decorator docstring for details " ++
    "and examples"

/-- The fixed part of the list-membership error message at source lines
62-66.  Note it enumerates only four of the five accepted types. -/
def bad_list_member_msg_static : String :=
  "Bad return value from repository construction function: all elements " ++
    "of list must be of type PipelineDefinition, PartitionSetDefinition, " ++
    "ScheduleDefinition, or SensorDefinition."

/-- The full list-membership error message (source lines 55-66), given the
bad (index, type name) pairs. -/
def bad_list_member_msg (bad_definitions : List (Nat × String)) : String :=
  bad_list_member_msg_static ++ " Got " ++
    String.intercalate ", "
      (bad_definitions.map fun p =>
        "value of type " ++ p.2 ++ " at index " ++ toString p.1) ++ "."

/-- The bad-dict-keys error message at source lines 71-83 (the braces and
quotes of the original are preserved as character escapes). -/
def bad_dict_keys_msg (bad_keys : List String) : String :=
  "Bad return value from repository construction function: dict must not " ++
    "contain keys other than \x7b\x27pipelines\x27, \x27partition_sets\x27, " ++
    "\x27schedules\x27, \x27jobs\x27\x7d: found " ++
    String.intercalate ", " (bad_keys.map fun k => "\x27" ++ k ++ "\x27")

/-- `_Repository.__call__` (source lines 25-93).  `self_name` and
`self_description` are the `_Repository` fields; `fn_name` is the
decorated construction function's `__name__` (used when no name was given,
source lines 28-29); `fn_ret` its return value.  The body classifies the
return value (lines 33-42), validates list membership (lines 44-67) or
dict category keys (lines 69-84), and builds the `RepositoryDefinition`
(lines 88-93). -/
def _Repository.call (self_name : Option String)
    (self_description : Option String) (fn_name : String)
    (fn_ret : RepositoryTarget) : Except DagsterError RepositoryDefinition :=
  let name := if py_truthy self_name then self_name.getD "" else fn_name
  match fn_ret with
  | .badValue type_name =>
    .error (.DagsterInvalidDefinitionError (bad_return_msg type_name))
  | .defList definitions =>
    let bad_definitions :=
      (definitions.enum.filter fun p => !is_valid_repository_list_member p.2)
        |>.map fun p => (p.1, p.2.type_name)
    if bad_definitions.isEmpty then
      .ok ⟨name, self_description, .fromList definitions⟩
    else
      .error (.DagsterInvalidDefinitionError (bad_list_member_msg bad_definitions))
  | .defDict keys =>
    let bad_keys := keys.filter fun k => !VALID_REPOSITORY_DATA_DICT_KEYS.contains k
    if bad_keys.isEmpty then
      .ok ⟨name, self_description, .fromDict keys⟩
    else
      .error (.DagsterInvalidDefinitionError (bad_dict_keys_msg bad_keys))
  | .repositoryData => .ok ⟨name, self_description, .custom⟩

/-- The three legal shapes of a repository construction function's return
value, with legal contents: a list whose members all pass the membership
check, a dict whose keys all lie in `VALID_REPOSITORY_DATA_DICT_KEYS`, or
a custom `RepositoryData` object. -/
def legal_repository_target : RepositoryTarget → Bool
  | .defList definitions => definitions.all is_valid_repository_list_member
  | .defDict keys => keys.all (VALID_REPOSITORY_DATA_DICT_KEYS.contains ·)
  | .repositoryData => true
  | .badValue _ => false

/-!
A concrete schema validator, used to evaluate the theorems on concrete
inputs.  The engine itself is parameterized over an arbitrary `Validator`,
so nothing proved about resolution depends on this model.
-/

mutual

/-- Modelled from the spec: a concrete instance of the black-box schema
validator (`process_config` lives in `dagster.config.validate`, outside
the sources).  A value matches a scalar schema when it is a scalar of that
kind, and a dict schema when every entry's key is a declared field whose
schema the entry's value matches (all fields optional); in particular the
empty schema accepts only the empty dict, per the spec: an entity with no
declared schema validates drafts against an empty schema, accepting empty
or absent configuration only. -/
def config_matches : ConfigSchema → ConfigValue → Bool
  | .sInt, .vInt _ => true
  | .sStr, .vStr _ => true
  | .sDict fields, .vDict entries => entries_match fields entries
  | _, _ => false

/-- Dict-entry matching for `config_matches`. -/
def entries_match (fields : List (String × ConfigSchema)) :
    List (String × ConfigValue) → Bool
  | [] => true
  | (key, v) :: rest =>
    (match fields.lookup key with
     | some field_schema => config_matches field_schema v
     | none => false) && entries_match fields rest

end

/-- Modelled from the spec: the concrete validator returns the (already
resolved, in this model unchanged) value on a match and a non-empty error
list otherwise. -/
def process_config (config_schema : ConfigSchema) (config : ConfigValue) :
    EvaluateValueResult :=
  if config_matches config_schema config then .success config
  else .failure ["Value at root does not match the config schema"]

/-!
Concrete sample entities used to evaluate the theorems below on explicit
inputs.
-/

/-- A base configurable definition with no declared schema. -/
def demo_base : ConfiguredMixin :=
  .base "ResourceDefinition" "base_res" none none false

/-- A config mapping function that always raises. -/
def demo_fail_fn : ConfigOrFn :=
  .configFn "boom_fn" (fun _ => .error "boom")

/-- A config mapping function returning an empty draft, first layer. -/
def demo_layer_one_fn : ConfigOrFn :=
  .configFn "layer_one_fn" (fun _ => .ok (.vDict []))

/-- A config mapping function returning an empty draft, second layer. -/
def demo_layer_two_fn : ConfigOrFn :=
  .configFn "layer_two_fn" (fun _ => .ok (.vDict []))

/-- A config mapping function whose draft (an int) cannot match any inner
dict schema. -/
def demo_bad_draft_fn : ConfigOrFn :=
  .configFn "bad_draft_fn" (fun _ => .ok (.vInt 3))

/-- `demo_base` wrapped once. -/
def demo_w1 : ConfiguredMixin :=
  .wrapped "ResourceDefinition" "w1" none none false demo_layer_one_fn demo_base

/-- `demo_w1` wrapped again: a two-layer chain over `demo_base`. -/
def demo_w2 : ConfiguredMixin :=
  .wrapped "ResourceDefinition" "w2" none none false demo_layer_two_fn demo_w1

/-!
Theorems.
-/

/-- The instrumented resolver computes the same result as
`apply_config_mapping`: the trace is pure bookkeeping. -/
theorem apply_config_mapping_trace_fst (V : Validator) :
    ∀ (e : ConfiguredMixin) (config : ConfigValue),
      (e.apply_config_mapping_trace V config).1 = e.apply_config_mapping V config
  | .base _ _ _ _ _, _ => rfl
  | .wrapped cn nm d sch inl cfn inner, config => by
    rw [ConfiguredMixin.apply_config_mapping_trace,
      ConfiguredMixin.apply_config_mapping]
    split
    · split
      · rfl
      · split
        · exact apply_config_mapping_trace_fst V inner _
        · rfl
    · rfl

/-- A chain's list of layer names has as many entries as the chain has
wrap layers. -/
theorem chain_names_length (e : ConfiguredMixin) :
    e.chain_names.length = e.wrap_chain_length := by
  induction e with
  | base cn nm d sch inl => rfl
  | wrapped cn nm d sch inl cfn inner ih =>
    simp [ConfiguredMixin.chain_names, ConfiguredMixin.wrap_chain_length, ih]

/-- Claim C1: resolving a base entity (one with no stored config mapping
function) with any configuration returns that configuration unchanged,
wrapped in a success result, for every validator — pure identity
resolution (source lines 61-65). -/
theorem base_entity_identity_resolution (V : Validator)
    (className nm : String) (description : Option String)
    (config_schema : Option ConfigSchema) (nameless : Bool)
    (config : ConfigValue) :
    ConfiguredMixin.apply_config_mapping V
        (.base className nm description config_schema nameless) config =
      .ok (.success config) := rfl

/-- Claim C2: when the user config mapping function of a wrapped entity
raises, resolution aborts by raising a `DagsterConfigMappingFunctionError`
(no result value, partial or otherwise, is returned) whose message is the
error boundary string generated for this layer — it names the wrapping
entity's concrete kind (`self.__class__.__name__` of the closure's
captured inner entity, which by construction of `configured` chains equals
the wrapping entity's own class name, `hclass`).  The trace shows exactly
one transformation event, labelled with the wrapping entity's name: no
deeper layer — in particular not the original base entity of a nested
chain — runs or reports the failure (source lines 67-71 and 99-104). -/
theorem config_mapping_error_names_wrapping_entity (V : Validator)
    (className nm : String) (description : Option String)
    (config_schema : Option ConfigSchema) (nameless : Bool)
    (cfn : ConfigOrFn) (inner : ConfiguredMixin) (config : ConfigValue)
    (cause : String)
    (hclass : inner.className = className)
    (hdict : config.isDict = true)
    (hraise : config_fn_of cfn (config.getField "config" (.vDict [])) =
      .error cause) :
    ConfiguredMixin.apply_config_mapping V
        (.wrapped className nm description config_schema nameless cfn inner)
        config =
      .error (.DagsterConfigMappingFunctionError
        (ConfiguredMixin._get_user_code_error_str
          (.wrapped className nm description config_schema nameless cfn inner))
        cause) ∧
    ConfiguredMixin.apply_config_mapping_trace V
        (.wrapped className nm description config_schema nameless cfn inner)
        config =
      (.error (.DagsterConfigMappingFunctionError
        (ConfiguredMixin._get_user_code_error_str
          (.wrapped className nm description config_schema nameless cfn inner))
        cause),
       [.transformation nm (config.getField "config" (.vDict []))]) := by
  have hmsg : inner._get_user_code_error_str =
      ConfiguredMixin._get_user_code_error_str
        (.wrapped className nm description config_schema nameless cfn inner) := by
    unfold ConfiguredMixin._get_user_code_error_str
    rw [hclass]
    rfl
  constructor
  · rw [ConfiguredMixin.apply_config_mapping]
    simp only [hdict, if_true, hraise, hmsg]
  · rw [ConfiguredMixin.apply_config_mapping_trace]
    simp only [hdict, if_true, hraise, hmsg]

/-- Witness for C2: a raising config function on a single wrap over
`demo_base`, resolved with the concrete validator. -/
theorem config_mapping_error_names_wrapping_entity_witness :
    ConfiguredMixin.apply_config_mapping process_config
        (.wrapped "ResourceDefinition" "w_boom" none none false demo_fail_fn
          demo_base) (.vDict []) =
      .error (.DagsterConfigMappingFunctionError
        (ConfiguredMixin._get_user_code_error_str
          (.wrapped "ResourceDefinition" "w_boom" none none false demo_fail_fn
            demo_base)) "boom") ∧
    ConfiguredMixin.apply_config_mapping_trace process_config
        (.wrapped "ResourceDefinition" "w_boom" none none false demo_fail_fn
          demo_base) (.vDict []) =
      (.error (.DagsterConfigMappingFunctionError
        (ConfiguredMixin._get_user_code_error_str
          (.wrapped "ResourceDefinition" "w_boom" none none false demo_fail_fn
            demo_base)) "boom"),
       [.transformation "w_boom" ((ConfigValue.vDict []).getField "config"
          (.vDict []))]) :=
  config_mapping_error_names_wrapping_entity process_config
    "ResourceDefinition" "w_boom" none none false demo_fail_fn demo_base
    (.vDict []) "boom" rfl rfl rfl

/-- Claim C3: a wrapped entity's draft output is wrapped as a dict under
the key config and validated against the inner entity's schema — defaulted
to the empty schema when the inner entity declares none
(`wrapped_schema_of`); when that validation fails, resolution returns the
failure with its errors immediately, and the trace shows no event beyond
this layer's transformation and validation: no recursive call into the
inner entity is performed (source lines 105-110). -/
theorem draft_validation_failure_short_circuits (V : Validator)
    (className nm : String) (description : Option String)
    (config_schema : Option ConfigSchema) (nameless : Bool)
    (cfn : ConfigOrFn) (inner : ConfiguredMixin) (config draft : ConfigValue)
    (errors : List String)
    (hdict : config.isDict = true)
    (hdraft : config_fn_of cfn (config.getField "config" (.vDict [])) =
      .ok draft)
    (hval : V (wrapped_schema_of inner.config_schema)
      (.vDict [("config", draft)]) = .failure errors) :
    ConfiguredMixin.apply_config_mapping V
        (.wrapped className nm description config_schema nameless cfn inner)
        config =
      .ok (.failure errors) ∧
    ConfiguredMixin.apply_config_mapping_trace V
        (.wrapped className nm description config_schema nameless cfn inner)
        config =
      (.ok (.failure errors),
       [.transformation nm (config.getField "config" (.vDict [])),
        .validation nm (.failure errors)]) := by
  constructor
  · rw [ConfiguredMixin.apply_config_mapping]
    simp only [hdict, if_true, hdraft, hval]
  · rw [ConfiguredMixin.apply_config_mapping_trace]
    simp only [hdict, if_true, hdraft, hval]

/-- Witness for C3: a config function whose draft (an int) fails to match
the empty schema of the schema-less `demo_base`, under the concrete
validator. -/
theorem draft_validation_failure_short_circuits_witness :
    ConfiguredMixin.apply_config_mapping process_config
        (.wrapped "ResourceDefinition" "w_bad" none none false
          demo_bad_draft_fn demo_base) (.vDict []) =
      .ok (.failure ["Value at root does not match the config schema"]) ∧
    ConfiguredMixin.apply_config_mapping_trace process_config
        (.wrapped "ResourceDefinition" "w_bad" none none false
          demo_bad_draft_fn demo_base) (.vDict []) =
      (.ok (.failure ["Value at root does not match the config schema"]),
       [.transformation "w_bad" ((ConfigValue.vDict []).getField "config"
          (.vDict [])),
        .validation "w_bad"
          (.failure ["Value at root does not match the config schema"])]) :=
  draft_validation_failure_short_circuits process_config "ResourceDefinition"
    "w_bad" none none false demo_bad_draft_fn demo_base (.vDict []) (.vInt 3)
    ["Value at root does not match the config schema"] rfl rfl rfl

/-- A trace that ends in overall success is either empty (base entity) or
opens with a transformation event whose recorded input is the config dict's
entry under the key config (with empty-dict default). -/
theorem trace_success_head (V : Validator) (e : ConfiguredMixin)
    (config r : ConfigValue) (tr : List ResolveEvent)
    (h : e.apply_config_mapping_trace V config = (.ok (.success r), tr)) :
    tr = [] ∨ ∃ nm rest,
      tr = .transformation nm (config.getField "config" (.vDict [])) :: rest := by
  cases e with
  | base cn nm d sch inl =>
    rw [ConfiguredMixin.apply_config_mapping_trace] at h
    simp only [Prod.mk.injEq] at h
    exact Or.inl h.2.symm
  | wrapped cn nm d sch inl cfn inner =>
    rw [ConfiguredMixin.apply_config_mapping_trace] at h
    split at h
    · split at h
      · simp at h
      · split at h
        · simp only [Prod.mk.injEq] at h
          exact Or.inr ⟨nm, _, h.2.symm⟩
        · simp at h
    · simp at h

/-- Claim C4: a successful resolve of a chain performs exactly one
transformation invocation and exactly one inner-schema validation per wrap
layer — their layer labels, in trace order, are exactly the chain's names
from root (outermost) to leaf (innermost), so a chain of N wraps performs
exactly N of each, outer-to-inner — and each layer's validated value is
fed to the next inner layer (`chain_fed`). -/
theorem successful_resolve_invokes_each_layer_once (V : Validator)
    (e : ConfiguredMixin) :
    ∀ (config v : ConfigValue) (tr : List ResolveEvent),
      e.apply_config_mapping_trace V config = (.ok (.success v), tr) →
      (tr.filter ResolveEvent.is_transformation).map ResolveEvent.layer =
          e.chain_names ∧
      (tr.filter ResolveEvent.is_validation).map ResolveEvent.layer =
          e.chain_names ∧
      (tr.filter ResolveEvent.is_transformation).length =
          e.wrap_chain_length ∧
      (tr.filter ResolveEvent.is_validation).length = e.wrap_chain_length ∧
      chain_fed tr := by
  induction e with
  | base cn nm d sch inl =>
    intro config v tr h
    rw [ConfiguredMixin.apply_config_mapping_trace] at h
    simp only [Prod.mk.injEq] at h
    obtain ⟨-, h2⟩ := h
    subst h2
    exact ⟨rfl, rfl, rfl, rfl, trivial⟩
  | wrapped cn nm d sch inl cfn inner ih =>
    intro config v tr h
    rw [ConfiguredMixin.apply_config_mapping_trace] at h
    split at h
    · split at h
      · simp at h
      · split at h
        · rename_i draft hfn value hv
          simp only [Prod.mk.injEq] at h
          obtain ⟨h1, h2⟩ := h
          have hrec : ConfiguredMixin.apply_config_mapping_trace V inner value =
              (.ok (.success v),
               (ConfiguredMixin.apply_config_mapping_trace V inner value).2) := by
            rw [← h1]
          obtain ⟨ihm1, ihm2, ihm3, ihm4, ihm5⟩ := ih value v _ hrec
          subst h2
          refine ⟨?_, ?_, ?_, ?_, ?_⟩
          · simpa [List.filter, ResolveEvent.is_transformation,
              ResolveEvent.is_validation, ResolveEvent.layer,
              ConfiguredMixin.chain_names] using ihm1
          · simpa [List.filter, ResolveEvent.is_transformation,
              ResolveEvent.is_validation, ResolveEvent.layer,
              ConfiguredMixin.chain_names] using ihm2
          · simpa [List.filter, ResolveEvent.is_transformation,
              ResolveEvent.is_validation,
              ConfiguredMixin.wrap_chain_length] using ihm3
          · simpa [List.filter, ResolveEvent.is_transformation,
              ResolveEvent.is_validation,
              ConfiguredMixin.wrap_chain_length] using ihm4
          · refine ⟨?_, ihm5⟩
            rcases trace_success_head V inner value v _ hrec with h0 | ⟨nm', rest', heq⟩
            · rw [h0]
              exact trivial
            · rw [heq]
        · simp at h
    · simp at h

/-- Witness for C4: the two-layer chain `demo_w2` resolves successfully
under the concrete validator, with exactly two transformation and two
validation events, labelled outer-to-inner. -/
theorem successful_resolve_invokes_each_layer_once_witness :
    ([ResolveEvent.transformation "w2" (.vDict []),
      ResolveEvent.validation "w2"
        (.success (.vDict [("config", .vDict [])])),
      ResolveEvent.transformation "w1" (.vDict []),
      ResolveEvent.validation "w1"
        (.success (.vDict [("config", .vDict [])]))].filter
        ResolveEvent.is_transformation).map ResolveEvent.layer =
      demo_w2.chain_names ∧
    ([ResolveEvent.transformation "w2" (.vDict []),
      ResolveEvent.validation "w2"
        (.success (.vDict [("config", .vDict [])])),
      ResolveEvent.transformation "w1" (.vDict []),
      ResolveEvent.validation "w1"
        (.success (.vDict [("config", .vDict [])]))].filter
        ResolveEvent.is_validation).map ResolveEvent.layer =
      demo_w2.chain_names ∧
    ([ResolveEvent.transformation "w2" (.vDict []),
      ResolveEvent.validation "w2" (.success (.vDict [("config", .vDict [])])),
      ResolveEvent.transformation "w1" (.vDict []),
      ResolveEvent.validation "w1"
        (.success (.vDict [("config", .vDict [])]))].filter
       ResolveEvent.is_transformation).length = demo_w2.wrap_chain_length ∧
    ([ResolveEvent.transformation "w2" (.vDict []),
      ResolveEvent.validation "w2" (.success (.vDict [("config", .vDict [])])),
      ResolveEvent.transformation "w1" (.vDict []),
      ResolveEvent.validation "w1"
        (.success (.vDict [("config", .vDict [])]))].filter
       ResolveEvent.is_validation).length = demo_w2.wrap_chain_length ∧
    chain_fed
      [ResolveEvent.transformation "w2" (.vDict []),
       ResolveEvent.validation "w2" (.success (.vDict [("config", .vDict [])])),
       ResolveEvent.transformation "w1" (.vDict []),
       ResolveEvent.validation "w1"
         (.success (.vDict [("config", .vDict [])]))] :=
  successful_resolve_invokes_each_layer_once process_config demo_w2
    (.vDict []) (.vDict [("config", .vDict [])])
    [ResolveEvent.transformation "w2" (.vDict []),
     ResolveEvent.validation "w2" (.success (.vDict [("config", .vDict [])])),
     ResolveEvent.transformation "w1" (.vDict []),
     ResolveEvent.validation "w1"
       (.success (.vDict [("config", .vDict [])]))] rfl

/-- Claim C5: supplying a static (non-callable) configuration together
with any schema fails at wrap time with the `CheckError` from the
invariant at source lines 84-87 (a usage-time "Definition Error" in the
spec's classification) — via the `configured` method and via the
module-level `configured` decorator alike — and no wrapped entity is
produced (the result is the raised error). -/
theorem static_config_with_schema_rejected (e : ConfiguredMixin)
    (config : ConfigValue) (schema : ConfigSchema)
    (name description : Option String) :
    e.configured (.staticConfig config) (some schema) name description =
      .error (.CheckError static_with_schema_msg) ∧
    (DagsterError.CheckError static_with_schema_msg).is_definition_error =
      true ∧
    ∃ f, configured (.mixin e) (some schema) name description = .ok f ∧
      f (.staticConfig config) = .error (.CheckError static_with_schema_msg) :=
  ⟨rfl, rfl, _, rfl, rfl⟩

/-- Claim C6: invoking the module-level `configured` decorator on a
`CallableNode` (the intermediate artifact of aliasing/tagging), or on any
object that is not a `ConfiguredMixin`, fails with the corresponding
`CheckError` from `_check_configurable_param` (a usage-time "Definition
Error") for every argument combination; since the decorator raises before
returning the `_configured` closure, no transformation function can ever
run and no wrapped entity is constructed. -/
theorem callable_node_configured_rejected
    (config_schema : Option ConfigSchema) (name description : Option String)
    (type_name : String) :
    configured .callableNode config_schema name description =
      .error (.CheckError callable_node_msg) ∧
    configured (.nonConfigurable type_name) config_schema name description =
      .error (.CheckError configurable_types_msg) ∧
    _check_configurable_param .callableNode =
      .error (.CheckError callable_node_msg) ∧
    _check_configurable_param (.nonConfigurable type_name) =
      .error (.CheckError configurable_types_msg) ∧
    (DagsterError.CheckError callable_node_msg).is_definition_error = true :=
  ⟨rfl, rfl, rfl, rfl, rfl⟩

/-- Counterexample to C7 as literally stated: an explicit name IS supplied
— the empty string — yet `_name_for_configured_node` does not use it: the
Python `new_name or fn_name` treats the empty string as absent and falls
back to the callable's identifier. -/
theorem explicit_empty_name_not_used :
    demo_base._name_for_configured_node (some "")
        (.configFn "my_fn" (fun c => .ok c)) = .ok "my_fn" ∧
    (Except.ok "my_fn" : Except DagsterError String) ≠ .ok "" :=
  ⟨rfl, by simp⟩

/-- Claim C7 (amended): if a non-empty explicit name is supplied it is
used; otherwise (the explicit name absent or empty, hence falsy), if the
transformation is a named callable with a non-empty `__name__`, that
identifier becomes the new entity's name; if neither yields a truthy name,
resolution fails with a `DagsterInvalidDefinitionError` whose message
identifies the node being configured by the base entity's own `name`
(source lines 143-159). -/
theorem name_resolution_rules (self : ConfiguredMixin)
    (new_name : Option String) (orig : ConfigOrFn) :
    (∀ s, new_name = some s → s ≠ "" →
      self._name_for_configured_node new_name orig = .ok s) ∧
    (py_truthy new_name = false →
      ∀ fnName fn, orig = .configFn fnName fn → fnName ≠ "" →
        self._name_for_configured_node new_name orig = .ok fnName) ∧
    (py_truthy new_name = false → py_truthy (fn_name_of orig) = false →
      self._name_for_configured_node new_name orig =
        .error (.DagsterInvalidDefinitionError (missing_name_msg self.name))) := by
  refine ⟨?_, ?_, ?_⟩
  · intro s hs hne
    subst hs
    have h2 : s.isEmpty = false := by
      rw [← Bool.not_eq_true, String.isEmpty_iff]
      exact hne
    have h1 : py_truthy (some s) = true := by
      simp [py_truthy, h2]
    unfold ConfiguredMixin._name_for_configured_node
    simp [h1]
  · intro h0 fnName fn ho hne
    subst ho
    have h2 : fnName.isEmpty = false := by
      rw [← Bool.not_eq_true, String.isEmpty_iff]
      exact hne
    have h1 : py_truthy (some fnName) = true := by
      simp [py_truthy, h2]
    unfold ConfiguredMixin._name_for_configured_node
    simp [h0, fn_name_of, h1]
  · intro h0 h1
    unfold ConfiguredMixin._name_for_configured_node
    simp [h0, h1]

/-- Witness for the amended C7: a non-empty explicit name wins. -/
theorem name_resolution_rules_witness :
    demo_base._name_for_configured_node (some "mika")
        (.staticConfig (.vDict [])) = .ok "mika" :=
  (name_resolution_rules demo_base (some "mika") (.staticConfig (.vDict []))).1
    "mika" rfl (by decide)

/-- Claim C8: a successful `configured` call returns a new entity of the
same concrete kind (same class name) that is distinct from the original;
the original is held unchanged as the new entity's inner reference, its
schema and description are the supplied ones, and the chain is exactly one
layer deeper.  The embedding is pure, so the original entity's own fields
and resolution behaviour are intrinsically unchanged by the call (spec
sections 3 and 4.2; source lines 114-141). -/
theorem configured_allocates_new_entity (e : ConfiguredMixin)
    (cfn : ConfigOrFn) (config_schema : Option ConfigSchema)
    (name description : Option String) (w : ConfiguredMixin)
    (hw : e.configured cfn config_schema name description = .ok w) :
    w.className = e.className ∧
    w.inner? = some e ∧
    w.config_schema = config_schema ∧
    w.description = description ∧
    w.is_nameless = e.is_nameless ∧
    w.is_preconfigured = true ∧
    w.wrap_chain_length = e.wrap_chain_length + 1 ∧
    w ≠ e := by
  have hshape : ∃ n, w = .wrapped e.className n description config_schema
      e.is_nameless cfn e := by
    unfold ConfiguredMixin.configured at hw
    split at hw
    · simp at hw
    · unfold ConfiguredMixin.copy_for_configured at hw
      split at hw
      · simp at hw
      · rename_i n hn
        simp only [Except.ok.injEq] at hw
        exact ⟨n, hw.symm⟩
  obtain ⟨n, rfl⟩ := hshape
  refine ⟨rfl, rfl, rfl, rfl, rfl, rfl, rfl, ?_⟩
  intro heq
  have hlen := congrArg ConfiguredMixin.wrap_chain_length heq
  simp [ConfiguredMixin.wrap_chain_length] at hlen

/-- Witness for C8: wrapping `demo_base` once with an explicit name yields
exactly `demo_w1`. -/
theorem configured_allocates_new_entity_witness :
    demo_w1.className = demo_base.className ∧
    demo_w1.inner? = some demo_base ∧
    demo_w1.config_schema = none ∧
    demo_w1.description = none ∧
    demo_w1.is_nameless = demo_base.is_nameless ∧
    demo_w1.is_preconfigured = true ∧
    demo_w1.wrap_chain_length = demo_base.wrap_chain_length + 1 ∧
    demo_w1 ≠ demo_base :=
  configured_allocates_new_entity demo_base demo_layer_one_fn none
    (some "w1") none demo_w1 rfl

/-- The `bad_definitions` accumulator of `_Repository.call` is empty
exactly when every list element passes the membership check (stated over
`enumFrom` for the induction). -/
theorem bad_definitions_isEmpty (n : Nat) (xs : List RepoListMember) :
    (((List.enumFrom n xs).filter
        fun p => !is_valid_repository_list_member p.2).map
      (fun p => (p.1, p.2.type_name))).isEmpty =
      xs.all is_valid_repository_list_member := by
  induction xs generalizing n with
  | nil => rfl
  | cons x rest ih =>
    cases hx : is_valid_repository_list_member x <;>
      simp [List.enumFrom, List.filter_cons, hx, ih]

/-- `bad_definitions_isEmpty` at `List.enum`, syntactically as it occurs in
`_Repository.call`. -/
theorem bad_definitions_isEmpty_enum (xs : List RepoListMember) :
    ((xs.enum.filter fun p => !is_valid_repository_list_member p.2).map
      (fun p => (p.1, p.2.type_name))).isEmpty =
      xs.all is_valid_repository_list_member :=
  bad_definitions_isEmpty 0 xs

/-- The `bad_keys` accumulator of `_Repository.call` is empty exactly when
every dict key is a legal category key. -/
theorem bad_keys_isEmpty (ks : List String) :
    (ks.filter fun k => !VALID_REPOSITORY_DATA_DICT_KEYS.contains k).isEmpty =
      ks.all (VALID_REPOSITORY_DATA_DICT_KEYS.contains ·) := by
  induction ks with
  | nil => rfl
  | cons k rest ih =>
    cases hc : VALID_REPOSITORY_DATA_DICT_KEYS.contains k <;>
      simp only [List.filter_cons, List.all_cons, hc, Bool.not_true,
        Bool.not_false, Bool.false_eq_true, Bool.true_and, Bool.false_and,
        eq_self_iff_true, if_true, if_false, List.isEmpty_cons, ih]

/-- Claim C9: the repository construction entry point accepts exactly the
three legal return shapes — a list of built definitions (all of legal
membership type), a dict of category keys in the legal key set, or a
custom `RepositoryData` object — and raises a
`DagsterInvalidDefinitionError` for every other return type, for every
list of illegal membership, and for every dict with a key outside the
legal set (source lines 33-84). -/
theorem repository_construction_return_validation
    (self_name self_description : Option String) (fn_name : String)
    (fn_ret : RepositoryTarget) :
    ((∃ r, _Repository.call self_name self_description fn_name fn_ret =
        .ok r) ↔ legal_repository_target fn_ret = true) ∧
    (legal_repository_target fn_ret = false →
      ∃ msg, _Repository.call self_name self_description fn_name fn_ret =
        .error (.DagsterInvalidDefinitionError msg)) := by
  cases fn_ret with
  | badValue t =>
    refine ⟨⟨?_, ?_⟩, ?_⟩
    · rintro ⟨r, hr⟩
      simp [_Repository.call] at hr
    · intro h
      simp [legal_repository_target] at h
    · intro _
      exact ⟨_, rfl⟩
  | defList xs =>
    cases hall : xs.all is_valid_repository_list_member with
    | true =>
      have hb : ((xs.enum.filter
          fun p => !is_valid_repository_list_member p.2).map
            (fun p => (p.1, p.2.type_name))).isEmpty = true :=
        (bad_definitions_isEmpty_enum xs).trans hall
      have hcall : _Repository.call self_name self_description fn_name
          (.defList xs) =
          .ok ⟨if py_truthy self_name then self_name.getD "" else fn_name,
            self_description, .fromList xs⟩ := by
        simp [_Repository.call, hb]
      refine ⟨⟨?_, ?_⟩, ?_⟩
      · intro _
        simp [legal_repository_target, hall]
      · intro _
        exact ⟨_, hcall⟩
      · intro h
        simp [legal_repository_target, hall] at h
    | false =>
      have hb : ((xs.enum.filter
          fun p => !is_valid_repository_list_member p.2).map
            (fun p => (p.1, p.2.type_name))).isEmpty = false :=
        (bad_definitions_isEmpty_enum xs).trans hall
      have hcall : _Repository.call self_name self_description fn_name
          (.defList xs) =
          .error (.DagsterInvalidDefinitionError
            (bad_list_member_msg
              ((xs.enum.filter fun p => !is_valid_repository_list_member p.2).map
                (fun p => (p.1, p.2.type_name))))) := by
        simp [_Repository.call, hb]
      refine ⟨⟨?_, ?_⟩, ?_⟩
      · rintro ⟨r, hr⟩
        rw [hcall] at hr
        cases hr
      · intro h
        simp [legal_repository_target, hall] at h
      · intro _
        exact ⟨_, hcall⟩
  | defDict ks =>
    cases hall : ks.all (VALID_REPOSITORY_DATA_DICT_KEYS.contains ·) with
    | true =>
      have hb : (ks.filter
          fun k => !VALID_REPOSITORY_DATA_DICT_KEYS.contains k).isEmpty = true :=
        (bad_keys_isEmpty ks).trans hall
      have hcall : _Repository.call self_name self_description fn_name
          (.defDict ks) =
          .ok ⟨if py_truthy self_name then self_name.getD "" else fn_name,
            self_description, .fromDict ks⟩ := by
        simp only [_Repository.call, hb]
        simp
      refine ⟨⟨?_, ?_⟩, ?_⟩
      · intro _
        exact hall
      · intro _
        exact ⟨_, hcall⟩
      · intro h
        exact absurd (hall.symm.trans h) (by decide)
    | false =>
      have hb : (ks.filter
          fun k => !VALID_REPOSITORY_DATA_DICT_KEYS.contains k).isEmpty = false :=
        (bad_keys_isEmpty ks).trans hall
      have hcall : _Repository.call self_name self_description fn_name
          (.defDict ks) =
          .error (.DagsterInvalidDefinitionError
            (bad_dict_keys_msg
              (ks.filter fun k => !VALID_REPOSITORY_DATA_DICT_KEYS.contains k))) := by
        simp only [_Repository.call, hb]
        simp
      refine ⟨⟨?_, ?_⟩, ?_⟩
      · rintro ⟨r, hr⟩
        rw [hcall] at hr
        cases hr
      · intro h
        exact absurd (hall.symm.trans h) (by decide)
      · intro _
        exact ⟨_, hcall⟩
  | repositoryData =>
    refine ⟨⟨?_, ?_⟩, ?_⟩
    · intro _
      rfl
    · intro _
      exact ⟨_, rfl⟩
    · intro h
      simp [legal_repository_target] at h

/-- Witness for C9: a custom `RepositoryData` return is accepted; an int
return is rejected with a `DagsterInvalidDefinitionError`. -/
theorem repository_construction_return_validation_witness :
    (∃ r, _Repository.call none none "repo_fn" .repositoryData = .ok r) ∧
    (∃ msg, _Repository.call none none "repo_fn" (.badValue "int") =
      .error (.DagsterInvalidDefinitionError msg)) :=
  ⟨((repository_construction_return_validation none none "repo_fn"
      .repositoryData).1).mpr (by decide),
   (repository_construction_return_validation none none "repo_fn"
      (.badValue "int")).2 (by decide)⟩

set_option maxRecDepth 8000 in
/-- Claim C10 (implicit): in the repository decorator's list form a
`GraphDefinition` element is a legal member alongside the four types the
error message names; every list whose elements are all of the five
accepted types passes membership validation (and yields the repository
definition), any list containing an element of another type is rejected
with a `DagsterInvalidDefinitionError` — and the fixed part of the
membership error message enumerates only `PipelineDefinition`,
`PartitionSetDefinition`, `ScheduleDefinition` and `SensorDefinition`,
not `GraphDefinition` (source lines 44-66). -/
theorem graph_definition_membership_accepted :
    is_valid_repository_list_member .GraphDefinition = true ∧
    (∀ (self_name self_description : Option String) (fn_name : String)
        (xs : List RepoListMember),
      xs.all is_valid_repository_list_member = true →
      _Repository.call self_name self_description fn_name (.defList xs) =
        .ok ⟨if py_truthy self_name then self_name.getD "" else fn_name,
          self_description, .fromList xs⟩) ∧
    (∀ (self_name self_description : Option String) (fn_name : String)
        (xs : List RepoListMember),
      xs.all is_valid_repository_list_member = false →
      ∃ msg, _Repository.call self_name self_description fn_name
        (.defList xs) = .error (.DagsterInvalidDefinitionError msg)) ∧
    ¬ ("GraphDefinition".toList <:+: bad_list_member_msg_static.toList) ∧
    ("PipelineDefinition".toList <:+: bad_list_member_msg_static.toList) ∧
    ("PartitionSetDefinition".toList <:+: bad_list_member_msg_static.toList) ∧
    ("ScheduleDefinition".toList <:+: bad_list_member_msg_static.toList) ∧
    ("SensorDefinition".toList <:+: bad_list_member_msg_static.toList) := by
  refine ⟨rfl, ?_, ?_, by decide, by decide, by decide, by decide, by decide⟩
  · intro self_name self_description fn_name xs hall
    have hb : ((xs.enum.filter
        fun p => !is_valid_repository_list_member p.2).map
          (fun p => (p.1, p.2.type_name))).isEmpty = true :=
      (bad_definitions_isEmpty_enum xs).trans hall
    simp [_Repository.call, hb]
  · intro self_name self_description fn_name xs hall
    have hb : ((xs.enum.filter
        fun p => !is_valid_repository_list_member p.2).map
          (fun p => (p.1, p.2.type_name))).isEmpty = false :=
      (bad_definitions_isEmpty_enum xs).trans hall
    have hcall : _Repository.call self_name self_description fn_name
        (.defList xs) =
        .error (.DagsterInvalidDefinitionError
          (bad_list_member_msg
            ((xs.enum.filter fun p => !is_valid_repository_list_member p.2).map
              (fun p => (p.1, p.2.type_name))))) := by
      simp [_Repository.call, hb]
    exact ⟨_, hcall⟩

/-- Witness for C10: the all-legal list containing a `GraphDefinition` is
accepted; the list containing an int is rejected. -/
theorem graph_definition_membership_accepted_witness :
    _Repository.call none none "repo_fn"
        (.defList [.GraphDefinition, .PipelineDefinition]) =
      .ok ⟨"repo_fn", none,
        .fromList [.GraphDefinition, .PipelineDefinition]⟩ ∧
    ∃ msg, _Repository.call none none "repo_fn" (.defList [.other "int"]) =
      .error (.DagsterInvalidDefinitionError msg) :=
  ⟨graph_definition_membership_accepted.2.1 none none "repo_fn"
      [.GraphDefinition, .PipelineDefinition] (by decide),
   graph_definition_membership_accepted.2.2.1 none none "repo_fn"
      [.other "int"] (by decide)⟩
